/-
Verification of the 38C3-Downloader pipeline (src/main.py) against its
specification.  The SQLite tables, the download protocol and the HTML
extraction helpers are shallowly embedded as pure Lean functions; network
and filesystem effects appear as explicit input parameters describing the
outcome the environment produced.
-/
import Mathlib

namespace Downloader

/-! ## Data model

The `talks` table (main.py, `init_db`): keyed by the external integer `id`
(PRIMARY KEY), so it is modelled as a partial map from ids to rows.
Columns that SQLite may hold as NULL are `Option`-valued; `last_mtime` is
always written as an integer by both code paths (`talk_data.get("mtime", 0)`
on insert, `talk_data.get("mtime")` after the mandatory-key check on
update), so it is a plain `Int` here. -/

structure TalkRow where
  id : Int
  guid : Option String
  title : Option String
  room : Option String
  status : Option String
  start : Option Int
  duration : Option Int
  release_url : Option String
  authors : Option String
  description : Option String
  last_mtime : Int
deriving DecidableEq, Repr

/-- The `talk_data` dict handed to `upsert_talk`.  A field of value `none`
means the corresponding key is absent from the dict (`dict.get` returns
`None`); `mtime = none` means the `"mtime"` key is absent, so that
`talk_data["mtime"]` would raise `KeyError`. -/
structure TalkData where
  id : Int
  guid : Option String
  title : Option String
  room : Option String
  status : Option String
  start : Option Int
  duration : Option Int
  release_url : Option String
  mtime : Option Int
deriving DecidableEq, Repr

/-- The `talks` table: at most one row per primary key `id`. -/
def Talks : Type := Int → Option TalkRow

/-- Python truthiness of an integer: `0` is falsy, everything else truthy. -/
def pyTruthyInt (n : Int) : Bool := n != 0

/-- Python truthiness of a string: `""` is falsy. -/
def pyTruthyStr (s : String) : Bool := s != ""

/-- The idiom `n if n else 0` on an integer (main.py:134). -/
def pythonOrZero (n : Int) : Int := if pyTruthyInt n then n else 0

/-- Embeds `str.lower()` (ASCII case folding, character by character). -/
def pyLower (s : String) : String := String.mk (s.toList.map Char.toLower)

/-- The row written by the INSERT branch of `upsert_talk` (main.py:116-131):
`authors` and `description` are not in the column list and stay NULL, and a
missing `"mtime"` key defaults to `0` via `talk_data.get("mtime", 0)`. -/
def insertRow (td : TalkData) : TalkRow :=
  { id := td.id
    guid := td.guid
    title := td.title
    room := td.room
    status := td.status
    start := td.start
    duration := td.duration
    release_url := td.release_url
    authors := none
    description := none
    last_mtime := td.mtime.getD 0 }

/-- The row written by the UPDATE branch of `upsert_talk` (main.py:136-151)
over an existing row `old`: every feed column is overwritten, `authors` and
`description` are untouched, and `last_mtime` becomes the incoming `mtime`
(already known to be present with value `m`). -/
def updateRow (old : TalkRow) (td : TalkData) (m : Int) : TalkRow :=
  { id := old.id
    guid := td.guid
    title := td.title
    room := td.room
    status := td.status
    start := td.start
    duration := td.duration
    release_url := td.release_url
    authors := old.authors
    description := old.description
    last_mtime := m }

/-- Embeds `upsert_talk` (main.py:96-153).  Here `none` models the call raising
(`KeyError` from `talk_data["mtime"]` on the update path); since the
exception fires before any SQL statement of that path runs, the caller's
table is untouched, which the `Option` return conveys by carrying no state.
`existing_mtime` embeds `row[1] if row[1] else 0` with Python integer
truthiness, and the update fires only on `talk_data["mtime"] > existing_mtime`. -/
def upsert_talk (talks : Talks) (td : TalkData) : Option Talks :=
  match talks td.id with
  | none =>
      some (fun j => if j = td.id then some (insertRow td) else talks j)
  | some row =>
      let existing_mtime : Int := pythonOrZero row.last_mtime
      match td.mtime with
      | none => none
      | some m =>
          if m > existing_mtime then
            some (fun j => if j = td.id then some (updateRow row td m) else talks j)
          else
            some talks

/-! ## The `files` table and `insert_or_ignore_file`

`files` has an AUTOINCREMENT surrogate key and no UNIQUE constraint, so it
is modelled as the list of rows in insertion order; uniqueness of
(`talk_id`, `file_type`, `file_url`) is enforced purely by the SELECT-then-
INSERT guard of `insert_or_ignore_file` (main.py:156-177). -/

structure FileRow where
  talk_id : Int
  file_type : String
  file_url : String
  local_path : String
deriving DecidableEq, Repr

/-- The WHERE clause of the existence check: same (`talk_id`, `file_type`,
`file_url`) triple. -/
def fileMatches (talk_id : Int) (file_type file_url : String) (r : FileRow) : Bool :=
  r.talk_id == talk_id && r.file_type == file_type && r.file_url == file_url

/-- Embeds `insert_or_ignore_file` (main.py:156-177): SELECT a row with the same
triple; only when none is found, INSERT a fresh row at the end of the
table. -/
def insert_or_ignore_file (files : List FileRow) (talk_id : Int)
    (file_type file_url local_path : String) : List FileRow :=
  match files.find? (fileMatches talk_id file_type file_url) with
  | some _ => files
  | none =>
      files ++ [{ talk_id := talk_id, file_type := file_type,
                  file_url := file_url, local_path := local_path }]

/-- One recorded call to `insert_or_ignore_file`. -/
structure FileCall where
  talk_id : Int
  file_type : String
  file_url : String
  local_path : String
deriving DecidableEq, Repr

/-- Replay a sequence of `insert_or_ignore_file` calls in order. -/
def applyFileCalls (files : List FileRow) (calls : List FileCall) : List FileRow :=
  calls.foldl
    (fun fs c => insert_or_ignore_file fs c.talk_id c.file_type c.file_url c.local_path)
    files

/-- Number of rows carrying a given (`talk_id`, `file_type`, `file_url`)
triple. -/
def countTriple (files : List FileRow) (talk_id : Int)
    (file_type file_url : String) : Nat :=
  (files.filter (fileMatches talk_id file_type file_url)).length

/-! ## `download_file`

`download_file` (main.py:184-243) mixes network and filesystem effects; the
environment's contribution is passed in explicitly:
* `head` — outcome of the HEAD probe: `none` when `requests.head` raised,
  otherwise the response's `ok` flag and its `Content-Length` header
  (`none` = header absent, `some none` = present but not parseable as an
  integer, `some (some n)` = parses to `n`);
* `existing` — the size of the file already at `dest_path`, `none` when no
  file exists there;
* `transfer` — what the body GET would do if performed: complete with some
  actual on-disk size, or raise a `requests.RequestException` after having
  written some prefix of the body (`none` = it raised before the
  destination file was even created). -/

structure HeadResp where
  ok : Bool
  contentLength : Option (Option Int)
deriving DecidableEq, Repr

inductive TransferOutcome where
  | success (actualSize : Int)
  | failure (written : Option Int)
deriving DecidableEq, Repr

/-- What the caller observes when `download_file` returns: the boolean
result, the file now at `dest_path` (by size; `none` = absent), whether a
body GET was performed, and whether the size-mismatch warning was
printed. -/
structure DownloadResult where
  ok : Bool
  finalFile : Option Int
  transferred : Bool
  warned : Bool
deriving DecidableEq, Repr

/-- Computes `expected_size` as in main.py:197-209: `None` unless the HEAD
request succeeded with `ok` status and a `Content-Length` header parseable
as `int`. -/
def expectedSizeOf (head : Option HeadResp) : Option Int :=
  match head with
  | none => none
  | some h =>
      if h.ok then
        match h.contentLength with
        | some (some n) => some n
        | _ => none
      else none

/-- The skip check of main.py:212:
`if expected_size and dest_path.exists() and st_size == expected_size`;
`expected_size` is tested for Python truthiness, so a `0` expected size
never skips. -/
def skipCheck (expected existing : Option Int) : Bool :=
  match expected, existing with
  | some e, some sz => pyTruthyInt e && sz == e
  | _, _ => false

/-- The post-download size check of main.py:232:
`if expected_size and dest_path.stat().st_size != expected_size`. -/
def sizeMismatch (expected : Option Int) (actual : Int) : Bool :=
  match expected with
  | some e => pyTruthyInt e && actual != e
  | none => false

/-- Embeds `download_file` (main.py:184-243).  When the skip check passes, the
existing file is kept and the call returns `True` with no body GET.  Past
it, any pre-existing file is unlinked and the body GET runs; on success
the mismatch check only warns (still `return True`), and on
`requests.RequestException` the destination is unlinked if present and the
call returns `False`. -/
def download_file (head : Option HeadResp) (existing : Option Int)
    (transfer : TransferOutcome) : DownloadResult :=
  if skipCheck (expectedSizeOf head) existing then
    { ok := true, finalFile := existing, transferred := false, warned := false }
  else
    match transfer with
    | .success s =>
        { ok := true, finalFile := some s, transferred := true,
          warned := sizeMismatch (expectedSizeOf head) s }
    | .failure _ =>
        { ok := false, finalFile := none, transferred := true, warned := false }

/-! ## Substring test

Python's `needle in haystack` on strings is a contiguous-substring test
(true for the empty needle). -/

/-- Substring occurrence of `needle` in `haystack` on character lists. -/
def containsSubList (needle : List Char) : List Char → Bool
  | [] => needle.isEmpty
  | c :: t => needle.isPrefixOf (c :: t) || containsSubList needle t

/-- Python's `needle in haystack` for strings. -/
def strContains (needle haystack : String) : Bool :=
  containsSubList needle.toList haystack.toList

/-! ## `get_release_url_from_website`

The resolver (main.py:315-361) walks the `event-preview` divs of the
listing page in document order; each is modelled by the pieces the code
looks up, every one optional exactly where a `find` can come back `None`
(the `a` tag is matched with `href=True`, so when present it always carries
an href). -/

structure ATag where
  href : String
  text : String
deriving DecidableEq, Repr

structure H3Tag where
  a : Option ATag
deriving DecidableEq, Repr

structure CaptionDiv where
  h3 : Option H3Tag
deriving DecidableEq, Repr

structure EventPreview where
  caption : Option CaptionDiv
deriving DecidableEq, Repr

/-- The constant `base_url` in `get_release_url_from_website`. -/
def mediaBaseUrl : String := "https://media.ccc.de"

/-- The for-loop of main.py:331-355: skip any preview missing the
caption/h3/a chain; on the first entry whose lower-cased link text contains
the lower-cased talk title, return `base_url + relative_href`. -/
def releaseUrlLoop (talk_title : String) : List EventPreview → Option String
  | [] => none
  | p :: rest =>
      match p.caption with
      | none => releaseUrlLoop talk_title rest
      | some caption =>
          match caption.h3 with
          | none => releaseUrlLoop talk_title rest
          | some h3 =>
              match h3.a with
              | none => releaseUrlLoop talk_title rest
              | some a =>
                  if strContains (pyLower talk_title) (pyLower a.text) then
                    some (mediaBaseUrl ++ a.href)
                  else
                    releaseUrlLoop talk_title rest

/-- Embeds `get_release_url_from_website` (main.py:315-361): `fetched = none`
models the GET of the listing page raising `requests.RequestException`
(the except branch falls through to `return None`); otherwise the page's
`event-preview` divs are scanned in document order. -/
def get_release_url_from_website (talk_title : String)
    (fetched : Option (List EventPreview)) : Option String :=
  match fetched with
  | none => none
  | some previews => releaseUrlLoop talk_title previews

/-- Spec-side restatement of the resolver's match rule (§4.3 of the spec,
for root-relative link targets as in its scenario): among the entries that
do carry a display link, the first one whose display text contains the
title case-insensitively wins, and its target is glued onto the listing's
origin. -/
def resolverSpec (talk_title : String) (previews : List EventPreview) : Option String :=
  ((previews.filterMap (fun p => p.caption.bind (fun c => c.h3.bind (fun h => h.a)))).find?
      (fun a => strContains (pyLower talk_title) (pyLower a.text))).map
    (fun a => mediaBaseUrl ++ a.href)

/-! ## `parse_release_page`: audio links

Each `<a class="btn btn-default download audio">` element contributes its
`href` (absent when the attribute is missing) and its class token list. -/

structure AudioLink where
  href : Option String
  classes : List String
deriving DecidableEq, Repr

/-- The language-scan loop of main.py:300-302: the variable keeps the LAST
class token that is one of `deu`, `eng`, `fra`, starting from `None`. -/
def langOf (classes : List String) : Option String :=
  classes.foldl
    (fun language c => if c = "deu" || c = "eng" || c = "fra" then some c else language)
    none

/-- Rendering of a Python value into an f-string: `None` prints as
`"None"`. -/
def pyFormatOptStr : Option String → String
  | none => "None"
  | some s => s

/-- The file-type tag of main.py:304-309: substring tests on the href,
`.mp3` checked first, formatted as `audio_<language>_<codec>`. -/
def audioFileType (language : Option String) (href : String) : String :=
  if strContains ".mp3" href then
    "audio_" ++ pyFormatOptStr language ++ "_mp3"
  else if strContains ".opus" href then
    "audio_" ++ pyFormatOptStr language ++ "_opus"
  else
    "audio_" ++ pyFormatOptStr language ++ "_other"

/-- The audio loop of main.py:295-311: links with a missing or empty
(falsy) href are skipped; the rest contribute `(filetype, href)` pairs in
document order, duplicates kept. -/
def parseAudioLinks : List AudioLink → List (String × String)
  | [] => []
  | l :: rest =>
      match l.href with
      | none => parseAudioLinks rest
      | some href =>
          if pyTruthyStr href then
            (audioFileType (langOf l.classes) href, href) :: parseAudioLinks rest
          else
            parseAudioLinks rest

/-- Suffix test on strings (`str.endswith(suffix)`). -/
def strEndsWith (s suffix : String) : Bool :=
  List.isPrefixOf suffix.toList.reverse s.toList.reverse

/-- The codec the CLAIM ascribes to a link target: determined by the file
EXTENSION (`.mp3` → mp3, `.opus` → opus, anything else → other). -/
def extensionCodec (href : String) : String :=
  if strEndsWith href ".mp3" then "mp3"
  else if strEndsWith href ".opus" then "opus"
  else "other"

/-- The audio tag list as the CLAIM describes it: same traversal, but with
the codec derived from the target's file extension. -/
def claimAudioTags : List AudioLink → List (String × String)
  | [] => []
  | l :: rest =>
      match l.href with
      | none => claimAudioTags rest
      | some href =>
          if pyTruthyStr href then
            ("audio_" ++ pyFormatOptStr (langOf l.classes) ++ "_" ++ extensionCodec href,
              href) :: claimAudioTags rest
          else
            claimAudioTags rest

/-- Spec-side restatement of the AMENDED tag rule: codec by substring
containment, `.mp3` tried before `.opus`. -/
def substringCodec (href : String) : String :=
  if strContains ".mp3" href then "mp3"
  else if strContains ".opus" href then "opus"
  else "other"

/-- The audio tag list under the amended wording: per retained link,
`audio_<lang>_<codec>` with the language rendered Python-style and the
codec from `substringCodec`. -/
def amendedAudioTags : List AudioLink → List (String × String)
  | [] => []
  | l :: rest =>
      match l.href with
      | none => amendedAudioTags rest
      | some href =>
          if pyTruthyStr href then
            ("audio_" ++ pyFormatOptStr (langOf l.classes) ++ "_" ++ substringCodec href,
              href) :: amendedAudioTags rest
          else
            amendedAudioTags rest

/-! ## The enrichment UPDATE in `main`

main.py:430-438: when at least one of the scraped `authors`/`description`
strings is truthy, both columns of the talk's row are overwritten. -/

/-- The enrichment step of `main` (main.py:430-438) on the talks table. -/
def enrichStep (talks : Talks) (talk_id : Int) (authors description : String) : Talks :=
  if pyTruthyStr authors || pyTruthyStr description then
    fun j =>
      if j = talk_id then
        (talks j).map (fun r => { r with authors := some authors, description := some description })
      else talks j
  else talks

/-! ## Concrete sample values (used to instantiate theorems) -/

/-- A stored talks row with id 1 and `last_mtime = 5`. -/
def sampleRow : TalkRow :=
  { id := 1, guid := some "g-1", title := some "Talk A", room := some "Saal 1",
    status := some "recorded", start := some 100, duration := some 60,
    release_url := none, authors := none, description := none, last_mtime := 5 }

/-- A talks table holding exactly `sampleRow` under id 1. -/
def sampleTalks : Talks := fun j => if j = 1 then some sampleRow else none

/-- The empty talks table. -/
def emptyTalks : Talks := fun _ => none

/-- A talks table whose id-1 row was already enriched with non-empty
`authors` and `description`. -/
def enrichedTalks : Talks :=
  fun j =>
    if j = 1 then
      some { sampleRow with authors := some "Alice", description := some "Deep dive" }
    else none

/-- A snapshot dict for id 1 whose `"mtime"` key is absent. -/
def snapshotNoMtime : TalkData :=
  { id := 1, guid := some "g-1", title := some "Talk A", room := some "Saal 1",
    status := some "recorded", start := some 100, duration := some 60,
    release_url := none, mtime := none }

/-- A snapshot dict for id 1 with `mtime = 7`. -/
def snapshotM7 : TalkData := { snapshotNoMtime with mtime := some 7 }

/-- A snapshot dict for id 1 with `mtime = 6` and a different title. -/
def snapshotM6 : TalkData :=
  { snapshotNoMtime with title := some "Talk A v2", mtime := some 6 }

/-! ## Helper lemmas -/

/-- The idiom `n if n else 0` is the identity on integers: the truthy branch returns
`n` itself and the falsy branch turns `0` into `0`. -/
theorem pythonOrZero_eq (n : Int) : pythonOrZero n = n := by
  by_cases h : n = 0
  · subst h; rfl
  · simp [pythonOrZero, pyTruthyInt, h]

/-! ## C4: a failed `download_file` leaves no file behind -/

/-- C4: every `download_file` call that returns failure — which happens
exactly on a transport failure of the body GET — leaves no file at
`dest_path`, whatever file was there before the call and however much of
the body had been written when the failure hit. -/
theorem download_file_failure_leaves_no_file (head : Option HeadResp)
    (existing : Option Int) (transfer : TransferOutcome)
    (h : (download_file head existing transfer).ok = false) :
    (download_file head existing transfer).finalFile = none := by
  unfold download_file at h ⊢
  split at h
  · simp at h
  · rename_i hc
    rw [if_neg hc]
    cases transfer with
    | success s => simp at h
    | failure w => rfl

/-- Witness for C4 at a concrete input: HEAD probe raised, a 5-byte file
pre-exists at the destination, the GET dies after writing 3 bytes. -/
theorem download_file_failure_leaves_no_file_witness :
    (download_file none (some 5) (TransferOutcome.failure (some 3))).ok = false
    ∧ (download_file none (some 5) (TransferOutcome.failure (some 3))).finalFile = none :=
  ⟨rfl, download_file_failure_leaves_no_file none (some 5)
    (TransferOutcome.failure (some 3)) rfl⟩

/-! ## C9: a size mismatch after a completed transfer is not a failure -/

/-- C9: when the body transfer actually runs and completes with `s` bytes
on disk while the probe had promised `e ≠ s`, `download_file` still
returns `True` and keeps the transferred file. -/
theorem download_file_mismatch_still_success (head : Option HeadResp)
    (existing : Option Int) (e s : Int)
    (hexp : expectedSizeOf head = some e) (hne : s ≠ e)
    (htr : (download_file head existing (TransferOutcome.success s)).transferred = true) :
    (download_file head existing (TransferOutcome.success s)).ok = true
    ∧ (download_file head existing (TransferOutcome.success s)).finalFile = some s := by
  unfold download_file at htr ⊢
  split at htr
  · simp at htr
  · rename_i hc
    rw [if_neg hc]
    exact ⟨rfl, rfl⟩

/-- Witness for C9 at a concrete input: probe promises 10 bytes, nothing
pre-exists, the GET completes with 7 bytes on disk. -/
theorem download_file_mismatch_still_success_witness :
    expectedSizeOf (some { ok := true, contentLength := some (some 10) }) = some 10
    ∧ (7 : Int) ≠ 10
    ∧ (download_file (some { ok := true, contentLength := some (some 10) }) none
        (TransferOutcome.success 7)).transferred = true
    ∧ (download_file (some { ok := true, contentLength := some (some 10) }) none
        (TransferOutcome.success 7)).ok = true
    ∧ (download_file (some { ok := true, contentLength := some (some 10) }) none
        (TransferOutcome.success 7)).finalFile = some 7 := by
  refine ⟨rfl, by decide, rfl, ?_⟩
  exact download_file_mismatch_still_success
    (some { ok := true, contentLength := some (some 10) }) none 10 7 rfl (by decide) rfl

/-! ## C5: the skip rule for an already-complete file

The claim fails when the known expected size is `0`: the check at
main.py:212 tests `expected_size` for Python truthiness, so a served
`Content-Length: 0` with a matching empty file does not skip — the empty
file is unlinked and the body GET still runs. -/

/-- Counterexample to C5 as stated: the probe yields the known expected
size `0` and a file of exactly size `0` sits at the destination, yet the
call performs a body transfer instead of returning without one. -/
theorem download_file_skip_zero_size_counterexample :
    expectedSizeOf (some { ok := true, contentLength := some (some 0) }) = some 0
    ∧ (download_file (some { ok := true, contentLength := some (some 0) }) (some 0)
        (TransferOutcome.success 0)).transferred = true := ⟨rfl, rfl⟩

/-- C5 (amended): when the probe yields a known NONZERO expected size and
the destination already holds a file of exactly that size, `download_file`
returns `True`, performs no body transfer, and leaves the file as it
found it. -/
theorem download_file_skip_complete_file (head : Option HeadResp)
    (existing : Option Int) (transfer : TransferOutcome) (e : Int)
    (hexp : expectedSizeOf head = some e) (hnz : e ≠ 0) (hex : existing = some e) :
    download_file head existing transfer =
      { ok := true, finalFile := existing, transferred := false, warned := false } := by
  have hc : skipCheck (expectedSizeOf head) existing = true := by
    rw [hexp, hex]
    simp [skipCheck, pyTruthyInt, hnz]
  unfold download_file
  rw [if_pos hc]

/-- Witness for the amended C5 at a concrete input: probe promises 3
bytes, a 3-byte file exists; the (never-performed) GET would have yielded
99 bytes. -/
theorem download_file_skip_complete_file_witness :
    expectedSizeOf (some { ok := true, contentLength := some (some 3) }) = some 3
    ∧ (3 : Int) ≠ 0
    ∧ (some 3 : Option Int) = some 3
    ∧ download_file (some { ok := true, contentLength := some (some 3) }) (some 3)
        (TransferOutcome.success 99) =
      { ok := true, finalFile := some 3, transferred := false, warned := false } := by
  refine ⟨rfl, by decide, rfl, ?_⟩
  exact download_file_skip_complete_file
    (some { ok := true, contentLength := some (some 3) }) (some 3)
    (TransferOutcome.success 99) 3 rfl (by decide) rfl

/-! ## C10: `upsert_talk` requires `"mtime"` exactly on the update path -/

/-- C10: with a row already stored under the snapshot's id, a snapshot
lacking the `"mtime"` key makes `upsert_talk` raise (`KeyError` from
`talk_data["mtime"]`, modelled as `none`) before any row is mutated; with
no stored row, the insert path accepts the same snapshot and defaults the
stored `last_mtime` to `0`; and whenever the key is present the call
completes normally. -/
theorem upsert_talk_mtime_totality (talks : Talks) (td : TalkData) :
    ((talks td.id).isSome = true → td.mtime = none → upsert_talk talks td = none)
    ∧ (talks td.id = none → td.mtime = none →
        ∃ t, upsert_talk talks td = some t
          ∧ (t td.id).map TalkRow.last_mtime = some 0)
    ∧ (∀ m, td.mtime = some m → (upsert_talk talks td).isSome = true) := by
  refine ⟨?_, ?_, ?_⟩
  · intro hrow hm
    unfold upsert_talk
    cases hr : talks td.id with
    | none => rw [hr] at hrow; simp at hrow
    | some row => rw [hm]
  · intro hr hm
    refine ⟨fun j => if j = td.id then some (insertRow td) else talks j, ?_, ?_⟩
    · unfold upsert_talk
      rw [hr]
    · simp [insertRow, hm]
  · intro m hm
    unfold upsert_talk
    cases hr : talks td.id with
    | none => rfl
    | some row =>
      rw [hm]
      dsimp only
      split <;> rfl

/-- Witness for C10, first conjunct, at a concrete input: id 1 is already
stored and the snapshot has no `"mtime"` key, so the call raises. -/
theorem upsert_talk_mtime_totality_witness :
    (sampleTalks snapshotNoMtime.id).isSome = true
    ∧ snapshotNoMtime.mtime = none
    ∧ upsert_talk sampleTalks snapshotNoMtime = none :=
  ⟨rfl, rfl, (upsert_talk_mtime_totality sampleTalks snapshotNoMtime).1 rfl rfl⟩

/-! ## Branch lemmas for `upsert_talk` -/

/-- INSERT branch: no row stored under the snapshot's id. -/
theorem upsert_talk_insert_eq (t : Talks) (td : TalkData) (h : t td.id = none) :
    upsert_talk t td =
      some (fun j => if j = td.id then some (insertRow td) else t j) := by
  unfold upsert_talk
  rw [h]

/-- UPDATE branch: a row is stored and the incoming mtime is strictly
greater. -/
theorem upsert_talk_update_eq (t : Talks) (td : TalkData) (row : TalkRow) (m : Int)
    (hrow : t td.id = some row) (hm : td.mtime = some m)
    (hgt : row.last_mtime < m) :
    upsert_talk t td =
      some (fun j => if j = td.id then some (updateRow row td m) else t j) := by
  unfold upsert_talk
  rw [hrow]
  dsimp only
  rw [hm]
  dsimp only
  rw [pythonOrZero_eq, if_pos hgt]

/-- Stale branch: a row is stored and the incoming mtime is not strictly
greater, so the table is returned untouched. -/
theorem upsert_talk_no_update (t : Talks) (td : TalkData) (row : TalkRow) (m : Int)
    (hrow : t td.id = some row) (hm : td.mtime = some m)
    (hle : m ≤ row.last_mtime) :
    upsert_talk t td = some t := by
  unfold upsert_talk
  rw [hrow]
  dsimp only
  rw [hm]
  dsimp only
  rw [pythonOrZero_eq, if_neg (by omega)]

/-! ## C1: a stale second snapshot has no effect -/

/-- C1: for snapshots with the same id and `S2.mtime ≤ S1.mtime`,
upserting S1 and then S2 produces exactly the state produced by upserting
S1 alone — S2 is discarded as stale, because an existing row is updated
only on a strictly greater incoming mtime.  (The equation is on the whole
table, so in particular the stored row under the shared id agrees.) -/
theorem upsert_talk_stale_snapshot_no_effect (talks : Talks) (S1 S2 : TalkData)
    (m1 m2 : Int) (hid : S2.id = S1.id) (h1 : S1.mtime = some m1)
    (h2 : S2.mtime = some m2) (hle : m2 ≤ m1) :
    (upsert_talk talks S1).bind (fun t => upsert_talk t S2) =
      upsert_talk talks S1 := by
  cases hr : talks S1.id with
  | none =>
      rw [upsert_talk_insert_eq talks S1 hr]
      simp only [Option.some_bind]
      exact upsert_talk_no_update _ S2 (insertRow S1) m2
        (by rw [hid]; simp) h2
        (by simp [insertRow, h1]; omega)
  | some row =>
      by_cases hgt : row.last_mtime < m1
      · rw [upsert_talk_update_eq talks S1 row m1 hr h1 hgt]
        simp only [Option.some_bind]
        exact upsert_talk_no_update _ S2 (updateRow row S1 m1) m2
          (by rw [hid]; simp) h2
          (by simp [updateRow]; omega)
      · rw [upsert_talk_no_update talks S1 row m1 hr h1 (by omega)]
        simp only [Option.some_bind]
        exact upsert_talk_no_update talks S2 row m2
          (by rw [hid]; exact hr) h2 (by omega)

/-- Witness for C1 at concrete inputs: empty table, S1 with mtime 7 then
S2 with mtime 6 under the same id. -/
theorem upsert_talk_stale_snapshot_no_effect_witness :
    snapshotM6.id = snapshotM7.id
    ∧ snapshotM7.mtime = some 7
    ∧ snapshotM6.mtime = some 6
    ∧ (6 : Int) ≤ 7
    ∧ (upsert_talk emptyTalks snapshotM7).bind (fun t => upsert_talk t snapshotM6) =
        upsert_talk emptyTalks snapshotM7 :=
  ⟨rfl, rfl, rfl, by decide,
    upsert_talk_stale_snapshot_no_effect emptyTalks snapshotM7 snapshotM6 7 6
      rfl rfl rfl (by decide)⟩

/-! ## C2: the newer second snapshot wins -/

/-- C2: for snapshots with the same id and `S2.mtime > S1.mtime`,
upserting S1 and then S2 stores the same row under that id as upserting S2
alone would. -/
theorem upsert_talk_newer_snapshot_wins (talks : Talks) (S1 S2 : TalkData)
    (m1 m2 : Int) (hid : S2.id = S1.id) (h1 : S1.mtime = some m1)
    (h2 : S2.mtime = some m2) (hlt : m1 < m2) :
    ((upsert_talk talks S1).bind (fun t => upsert_talk t S2)).map (fun t => t S2.id) =
      (upsert_talk talks S2).map (fun t => t S2.id) := by
  cases hr : talks S1.id with
  | none =>
      rw [upsert_talk_insert_eq talks S1 hr]
      simp only [Option.some_bind]
      have hrow1 : (fun j => if j = S1.id then some (insertRow S1) else talks j) S2.id
          = some (insertRow S1) := by rw [hid]; simp
      rw [upsert_talk_update_eq _ S2 (insertRow S1) m2 hrow1 h2
        (by simp [insertRow, h1]; omega)]
      rw [upsert_talk_insert_eq talks S2 (by rw [hid]; exact hr)]
      simp [updateRow, insertRow, hid, h2]
  | some row =>
      by_cases hgt : row.last_mtime < m1
      · rw [upsert_talk_update_eq talks S1 row m1 hr h1 hgt]
        simp only [Option.some_bind]
        have hrow1 : (fun j => if j = S1.id then some (updateRow row S1 m1) else talks j) S2.id
            = some (updateRow row S1 m1) := by rw [hid]; simp
        rw [upsert_talk_update_eq _ S2 (updateRow row S1 m1) m2 hrow1 h2
          (by simp [updateRow]; omega)]
        rw [upsert_talk_update_eq talks S2 row m2 (by rw [hid]; exact hr) h2 (by omega)]
        simp [updateRow]
      · rw [upsert_talk_no_update talks S1 row m1 hr h1 (by omega)]
        simp only [Option.some_bind]

/-- Witness for C2 at concrete inputs: empty table, S1 with mtime 6 then
S2 with mtime 7 under the same id. -/
theorem upsert_talk_newer_snapshot_wins_witness :
    snapshotM7.id = snapshotM6.id
    ∧ snapshotM6.mtime = some 6
    ∧ snapshotM7.mtime = some 7
    ∧ (6 : Int) < 7
    ∧ ((upsert_talk emptyTalks snapshotM6).bind (fun t => upsert_talk t snapshotM7)).map
          (fun t => t snapshotM7.id) =
        (upsert_talk emptyTalks snapshotM7).map (fun t => t snapshotM7.id) :=
  ⟨rfl, rfl, rfl, by decide,
    upsert_talk_newer_snapshot_wins emptyTalks snapshotM6 snapshotM7 6 7
      rfl rfl rfl (by decide)⟩

/-! ## Lemmas about the `files` table -/

/-- A freshly built row matches its own triple. -/
theorem fileMatches_self (tid : Int) (ft fu lp : String) :
    fileMatches tid ft fu
      { talk_id := tid, file_type := ft, file_url := fu, local_path := lp } = true := by
  simp [fileMatches]

/-- A row matching a triple carries exactly that triple. -/
theorem fileMatches_eq (tid : Int) (ft fu : String) (r : FileRow)
    (h : fileMatches tid ft fu r = true) :
    r.talk_id = tid ∧ r.file_type = ft ∧ r.file_url = fu := by
  simp only [fileMatches, Bool.and_eq_true, beq_iff_eq] at h
  exact ⟨h.1.1, h.1.2, h.2⟩

/-- The existence check comes back empty exactly when no stored row
carries the triple. -/
theorem find?_none_iff_countTriple_zero (files : List FileRow) (tid : Int)
    (ft fu : String) :
    files.find? (fileMatches tid ft fu) = none ↔ countTriple files tid ft fu = 0 := by
  simp [countTriple, List.find?_eq_none, List.length_eq_zero, List.filter_eq_nil_iff]

/-- When a row with the triple is already stored, the insert is a no-op. -/
theorem insert_or_ignore_file_noop (files : List FileRow) (tid : Int)
    (ft fu lp : String) (h : countTriple files tid ft fu ≠ 0) :
    insert_or_ignore_file files tid ft fu lp = files := by
  unfold insert_or_ignore_file
  cases hf : files.find? (fileMatches tid ft fu) with
  | none => exact absurd ((find?_none_iff_countTriple_zero files tid ft fu).mp hf) h
  | some r => rfl

/-- When no row with the triple is stored, the insert appends one row. -/
theorem insert_or_ignore_file_appends (files : List FileRow) (tid : Int)
    (ft fu lp : String) (h : countTriple files tid ft fu = 0) :
    insert_or_ignore_file files tid ft fu lp =
      files ++ [{ talk_id := tid, file_type := ft, file_url := fu, local_path := lp }] := by
  unfold insert_or_ignore_file
  rw [(find?_none_iff_countTriple_zero files tid ft fu).mpr h]

/-- Effect of one insert on the count of its own triple: an absent triple
appears once, a present one is left alone. -/
theorem countTriple_insert_self (files : List FileRow) (tid : Int) (ft fu lp : String) :
    countTriple (insert_or_ignore_file files tid ft fu lp) tid ft fu =
      if countTriple files tid ft fu = 0 then 1 else countTriple files tid ft fu := by
  by_cases h : countTriple files tid ft fu = 0
  · rw [insert_or_ignore_file_appends files tid ft fu lp h, if_pos h]
    unfold countTriple at h ⊢
    rw [List.filter_append, List.length_append, h]
    simp [fileMatches_self]
  · rw [insert_or_ignore_file_noop files tid ft fu lp h, if_neg h]

/-- One insert never pushes any triple's count above `max` of its old
count and 1. -/
theorem countTriple_insert_le (files : List FileRow) (ta : Int) (fta fua lpa : String)
    (tid : Int) (ft fu : String) :
    countTriple (insert_or_ignore_file files ta fta fua lpa) tid ft fu ≤
      max (countTriple files tid ft fu) 1 := by
  by_cases h : countTriple files ta fta fua = 0
  · rw [insert_or_ignore_file_appends files ta fta fua lpa h]
    unfold countTriple at h ⊢
    rw [List.filter_append, List.length_append]
    by_cases hm : fileMatches tid ft fu
        { talk_id := ta, file_type := fta, file_url := fua, local_path := lpa } = true
    · obtain ⟨e1, e2, e3⟩ := fileMatches_eq tid ft fu _ hm
      dsimp at e1 e2 e3
      subst e1; subst e2; subst e3
      rw [h]
      simp [hm]
    · simp [hm]
  · rw [insert_or_ignore_file_noop files ta fta fua lpa h]
    omega

/-- Replaying any sequence of `insert_or_ignore_file` calls preserves the
at-most-one-row-per-triple invariant. -/
theorem applyFileCalls_wf (calls : List FileCall) :
    ∀ files : List FileRow, (∀ tid ft fu, countTriple files tid ft fu ≤ 1) →
      ∀ tid ft fu, countTriple (applyFileCalls files calls) tid ft fu ≤ 1 := by
  induction calls with
  | nil => intro files hwf tid ft fu; exact hwf tid ft fu
  | cons c rest ih =>
      intro files hwf tid ft fu
      refine ih _ ?_ tid ft fu
      intro tid1 ft1 fu1
      calc countTriple (insert_or_ignore_file files c.talk_id c.file_type c.file_url c.local_path)
              tid1 ft1 fu1
          ≤ max (countTriple files tid1 ft1 fu1) 1 :=
            countTriple_insert_le files c.talk_id c.file_type c.file_url c.local_path tid1 ft1 fu1
        _ ≤ 1 := by have := hwf tid1 ft1 fu1; omega

/-! ## C3: at most one `files` row per (talk_id, file_type, file_url) -/

/-- C3: starting from a table with at most one row per triple, any
sequence of `insert_or_ignore_file` calls keeps every triple's row count
at most 1; and two back-to-back calls with an identical triple leave
exactly one row carrying it. -/
theorem files_unique_triple (files : List FileRow)
    (hwf : ∀ tid ft fu, countTriple files tid ft fu ≤ 1) :
    (∀ calls tid ft fu, countTriple (applyFileCalls files calls) tid ft fu ≤ 1)
    ∧ ∀ tid ft fu lp,
        countTriple
          (insert_or_ignore_file (insert_or_ignore_file files tid ft fu lp) tid ft fu lp)
          tid ft fu = 1 := by
  constructor
  · intro calls tid ft fu
    exact applyFileCalls_wf calls files hwf tid ft fu
  · intro tid ft fu lp
    have h1 := countTriple_insert_self files tid ft fu lp
    have h2 := countTriple_insert_self (insert_or_ignore_file files tid ft fu lp) tid ft fu lp
    have h3 := hwf tid ft fu
    by_cases h : countTriple files tid ft fu = 0
    · rw [if_pos h] at h1
      rw [h1] at h2
      simpa using h2
    · rw [if_neg h] at h1
      have : countTriple files tid ft fu = 1 := by omega
      rw [this] at h1
      rw [h1] at h2
      simpa using h2

/-- Witness for C3 at a concrete input: the empty table, then the same
(talk_id, file_type, file_url) inserted twice. -/
theorem files_unique_triple_witness :
    (∀ tid ft fu, countTriple [] tid ft fu ≤ 1)
    ∧ countTriple
        (insert_or_ignore_file
          (insert_or_ignore_file [] 1 "muxed" "https://cdn/1/muxed.mp4" "download/1/muxed.mp4")
          1 "muxed" "https://cdn/1/muxed.mp4" "download/1/muxed.mp4")
        1 "muxed" "https://cdn/1/muxed.mp4" = 1 :=
  ⟨fun tid ft fu => by simp [countTriple],
    (files_unique_triple [] (fun tid ft fu => by simp [countTriple])).2
      1 "muxed" "https://cdn/1/muxed.mp4" "download/1/muxed.mp4"⟩

/-! ## C6: the fallback resolver -/

/-- The scan loop of the resolver agrees with the spec-style find-first
formulation. -/
theorem releaseUrlLoop_eq_spec (title : String) (previews : List EventPreview) :
    releaseUrlLoop title previews = resolverSpec title previews := by
  induction previews with
  | nil => rfl
  | cons p rest ih =>
      obtain ⟨caption⟩ := p
      cases caption with
      | none =>
          simp only [releaseUrlLoop, resolverSpec, List.filterMap_cons, Option.none_bind] at ih ⊢
          exact ih
      | some cap =>
          obtain ⟨h3⟩ := cap
          cases h3 with
          | none =>
              simp only [releaseUrlLoop, resolverSpec, List.filterMap_cons, Option.some_bind,
                Option.none_bind] at ih ⊢
              exact ih
          | some hd =>
              obtain ⟨a⟩ := hd
              cases a with
              | none =>
                  simp only [releaseUrlLoop, resolverSpec, List.filterMap_cons, Option.some_bind,
                    Option.none_bind] at ih ⊢
                  exact ih
              | some atag =>
                  simp only [releaseUrlLoop, resolverSpec, List.filterMap_cons,
                    Option.some_bind] at ih ⊢
                  by_cases hm : strContains (pyLower title) (pyLower atag.text) = true
                  · simp [hm]
                  · have hfneg : List.find?
                        (fun a : ATag => strContains (pyLower title) (pyLower a.text))
                        (atag :: List.filterMap
                          (fun q => q.caption.bind fun c => c.h3.bind fun h => h.a) rest)
                        = List.find?
                          (fun a : ATag => strContains (pyLower title) (pyLower a.text))
                          (List.filterMap
                            (fun q => q.caption.bind fun c => c.h3.bind fun h => h.a) rest) :=
                      List.find?_cons_of_neg _ (by simpa using hm)
                    rw [if_neg hm, hfneg]
                    exact ih

/-- C6: the resolver returns, for the first entry (in document order) that
carries a display link whose text contains the talk title
case-insensitively, the listing origin glued onto that entry's link
target; it returns `none` when the listing fetch fails or nothing matches.
The second conjunct replays the spec's scenario: link text
"Talk A Extended", href `/v/talk-a`, title "Talk A". -/
theorem get_release_url_first_match (talk_title : String)
    (fetched : Option (List EventPreview)) :
    get_release_url_from_website talk_title fetched =
      fetched.bind (resolverSpec talk_title)
    ∧ get_release_url_from_website "Talk A"
        (some [⟨some ⟨some ⟨some ⟨"/v/talk-a", "Talk A Extended"⟩⟩⟩⟩]) =
      some "https://media.ccc.de/v/talk-a" := by
  constructor
  · cases fetched with
    | none => rfl
    | some previews =>
        simp only [get_release_url_from_website, Option.some_bind]
        exact releaseUrlLoop_eq_spec talk_title previews
  · decide

/-! ## C7: audio file-type tags -/

/-- String-append associativity packaged for tag formatting. -/
theorem audioFileType_eq_amended (lang : Option String) (href : String) :
    audioFileType lang href =
      "audio_" ++ pyFormatOptStr lang ++ "_" ++ substringCodec href := by
  unfold audioFileType substringCodec
  by_cases h3 : strContains ".mp3" href = true
  · rw [if_pos h3, if_pos h3]
    symm
    rw [String.append_assoc]
    rfl
  · rw [if_neg h3, if_neg h3]
    by_cases hop : strContains ".opus" href = true
    · rw [if_pos hop, if_pos hop]
      symm
      rw [String.append_assoc]
      rfl
    · rw [if_neg hop, if_neg hop]
      symm
      rw [String.append_assoc]
      rfl

/-- Counterexample to C7 as stated: an audio link whose target is
`talk.mp3.opus` has file extension `.opus`, but the code tags it by
substring containment with `.mp3` tested first, so the produced tag list
differs from the extension-derived one the claim describes. -/
theorem parse_audio_extension_counterexample :
    parseAudioLinks [{ href := some "talk.mp3.opus", classes := ["deu"] }] ≠
      claimAudioTags [{ href := some "talk.mp3.opus", classes := ["deu"] }] := by
  decide

/-- C7 (amended): each retained audio link (absent or empty href links are
skipped) contributes, in document order and with duplicates kept, the pair
`(audio_<lang>_<codec>, href)` where `<lang>` is the last known language
code among its class tokens (rendered `None` when absent) and `<codec>`
comes from substring tests on the target, `.mp3` before `.opus`, else
`other`.  The second conjunct replays the spec's scenario: class `deu`,
href ending `.opus`. -/
theorem parse_audio_tags_amended (links : List AudioLink) :
    parseAudioLinks links = amendedAudioTags links
    ∧ parseAudioLinks [{ href := some "talk-a.opus", classes := ["btn", "deu"] }] =
      [("audio_deu_opus", "talk-a.opus")] := by
  constructor
  · induction links with
    | nil => rfl
    | cons l rest ih =>
        obtain ⟨href, classes⟩ := l
        cases href with
        | none =>
            simp only [parseAudioLinks, amendedAudioTags]
            exact ih
        | some h =>
            simp only [parseAudioLinks, amendedAudioTags]
            by_cases ht : pyTruthyStr h = true
            · rw [if_pos ht, if_pos ht, audioFileType_eq_amended, ih]
            · rw [if_neg ht, if_neg ht]
              exact ih
  · decide

/-! ## C8: the enrichment update -/

/-- Counterexample to C8 as stated: the stored id-1 row carries the
non-empty enriched value `description = "Deep dive"`, the later scrape
produces `authors = "Bob"` (non-empty) and `description = ""` (empty), and
the update fires and overwrites the stored non-empty description with the
empty string. -/
theorem enrichStep_clobbers_counterexample :
    (enrichedTalks 1).map TalkRow.description = some (some "Deep dive")
    ∧ pyTruthyStr "Deep dive" = true
    ∧ ((enrichStep enrichedTalks 1 "Bob" "") 1).map TalkRow.description = some (some "") := by
  refine ⟨rfl, rfl, ?_⟩
  decide

/-- C8 (amended): the UPDATE of a talk's `authors`/`description` runs only
when at least one scraped value is non-empty — both empty leaves the whole
table untouched — but when it runs it overwrites BOTH columns with the
scraped values, so a stored non-empty value in one column survives an
empty scrape of that column only if the other scraped value is also
empty. -/
theorem enrichStep_update (talks : Talks) (talk_id : Int) (authors description : String) :
    (pyTruthyStr authors = false → pyTruthyStr description = false →
      enrichStep talks talk_id authors description = talks)
    ∧ ((pyTruthyStr authors || pyTruthyStr description) = true →
        (enrichStep talks talk_id authors description) talk_id =
          (talks talk_id).map
            (fun r => { r with authors := some authors, description := some description })
        ∧ ∀ j, j ≠ talk_id → (enrichStep talks talk_id authors description) j = talks j) := by
  constructor
  · intro ha hd
    unfold enrichStep
    rw [ha, hd]
    rfl
  · intro hor
    unfold enrichStep
    rw [hor]
    constructor
    · simp
    · intro j hj
      simp [hj]

/-- Witness for the amended C8 at a concrete input: scraped
`authors = "Bob"`, `description = ""` against the table holding
`sampleRow` under id 1. -/
theorem enrichStep_update_witness :
    (pyTruthyStr "Bob" || pyTruthyStr "") = true
    ∧ ((enrichStep sampleTalks 1 "Bob" "") 1 =
          (sampleTalks 1).map
            (fun r => { r with authors := some "Bob", description := some "" })
        ∧ ∀ j, j ≠ (1 : Int) → (enrichStep sampleTalks 1 "Bob" "") j = sampleTalks j) :=
  ⟨rfl, (enrichStep_update sampleTalks 1 "Bob" "").2 rfl⟩

end Downloader
